import Mathlib

/-!
Verification of the frame/payload codec of the rust-http2parse repository.

The Rust sources (src/lib.rs, src/flag.rs, src/kind.rs, src/frame.rs,
src/payload.rs) are shallowly embedded below.  Byte buffers are modelled as
`List Nat` (each element a byte value), machine integers as `Nat` with the
relevant width bound carried as a side condition, and every fallible Rust
function returns a `Res` value whose `fault` constructor models a Rust panic
(an out-of-bounds slice index or a `byteorder` read on a too-short buffer).
Bit masks of the source are written arithmetically where the operands are
byte or field values: `x as u8` is written `x % 256`, a right shift by `k`
is `x / 2 ^ k`, and masking to the low 31 bits is `x % 2 ^ 31`; these agree
with the source operations on all machine-integer inputs.
-/

/-- Errors from src/lib.rs (enum Error).  The `fault` outcome of a parse is
not a member of this enum: it models a Rust panic, see `Res`. -/
inductive Error where
  | Short
  | BadFlag (b : Nat)
  | BadKind (b : Nat)
  | TooMuchPadding (p : Nat)
  | PayloadLengthTooShort
  | PartialSettingLength
  | InvalidPayloadLength
  deriving DecidableEq, Repr

/-- Result of a fallible codec operation: `ok` and `err` model the Rust
`Result` constructors, `fault` models a panic (slice-index out of range or
an `unwrap` of `None`), which the Rust type system does not surface. -/
inductive Res (α : Type) where
  | ok (val : α)
  | err (e : Error)
  | fault
  deriving DecidableEq, Repr

/-- Frame kinds from src/kind.rs (enum Kind). -/
inductive Kind where
  | Data
  | Headers
  | Priority
  | Reset
  | Settings
  | PushPromise
  | Ping
  | GoAway
  | WindowUpdate
  | Continuation
  | Unregistered
  deriving DecidableEq, Repr

/-- Kind::new from src/kind.rs: total, maps bytes 0..9 to the named kinds
and every other byte to Unregistered. -/
def Kind.new (byte : Nat) : Kind :=
  match byte with
  | 0 => Kind.Data
  | 1 => Kind.Headers
  | 2 => Kind.Priority
  | 3 => Kind.Reset
  | 4 => Kind.Settings
  | 5 => Kind.PushPromise
  | 6 => Kind.Ping
  | 7 => Kind.GoAway
  | 8 => Kind.WindowUpdate
  | 9 => Kind.Continuation
  | _ => Kind.Unregistered

/-- Kind::encode from src/kind.rs: named kinds map back to 0..9 and
Unregistered encodes to the sentinel byte 255. -/
def Kind.encode (k : Kind) : Nat :=
  match k with
  | Kind.Data => 0
  | Kind.Headers => 1
  | Kind.Priority => 2
  | Kind.Reset => 3
  | Kind.Settings => 4
  | Kind.PushPromise => 5
  | Kind.Ping => 6
  | Kind.GoAway => 7
  | Kind.WindowUpdate => 8
  | Kind.Continuation => 9
  | Kind.Unregistered => 255

/-- The union of the declared flag bits of src/flag.rs
(END_STREAM 0x1, ACK 0x1, END_HEADERS 0x4, PADDED 0x8, PRIORITY 0x20),
which is the `all` mask the bitflags macro generates. -/
def Flag.all : Nat := 0x1 ||| 0x1 ||| 0x4 ||| 0x8 ||| 0x20

/-- The PADDED flag bit. -/
def Flag.PADDED : Nat := 0x8

/-- The PRIORITY flag bit. -/
def Flag.PRIORITY : Nat := 0x20

/-- Flag::new from src/flag.rs, which is bitflags from_bits on a u8: succeed
with the byte itself when no bit outside `Flag.all` is set.  The complement
of the mask inside u8 is written with xor against 0xFF. -/
def Flag.new (b : Nat) : Option Nat :=
  if b &&& (0xFF ^^^ Flag.all) = 0 then some b else none

/-- bitflags contains: every bit of the second mask is set in the first. -/
def Flag.contains (f m : Nat) : Bool := f &&& m == m

/-- ParserSettings from src/lib.rs. -/
structure ParserSettings where
  padding : Bool
  priority : Bool
  deriving DecidableEq, Repr

/-- FrameHeader from src/frame.rs.  `length` is the declared payload length
(u32 holding a 24-bit wire value), `flag` the validated flag byte, `id` the
u32 inside the StreamIdentifier newtype. -/
structure FrameHeader where
  length : Nat
  kind : Kind
  flag : Nat
  id : Nat
  deriving DecidableEq, Repr

/-- Priority from src/payload.rs: exclusivity bit, 31-bit dependency stream
identifier, raw weight byte. -/
structure Priority where
  exclusive : Bool
  dependency : Nat
  weight : Nat
  deriving DecidableEq, Repr

/-- Setting from src/payload.rs: a packed (u16 identifier, u32 value) pair. -/
structure Setting where
  identifier : Nat
  value : Nat
  deriving DecidableEq, Repr

/-- Payload from src/payload.rs.  Borrowed byte views become `List Nat`
holding the viewed bytes, so structural equality of two payloads compares
view contents exactly as PartialEq does on the Rust slices. -/
inductive Payload where
  | Data (data : List Nat)
  | Headers (priority : Option Priority) (block : List Nat)
  | Priority (p : Priority)
  | Reset (err : Nat)
  | Settings (settings : List Setting)
  | PushPromise (promised : Nat) (block : List Nat)
  | Ping (data : Nat)
  | GoAway (last : Nat) (error : Nat) (data : List Nat)
  | WindowUpdate (inc : Nat)
  | Continuation (block : List Nat)
  | Unregistered (block : List Nat)
  deriving DecidableEq, Repr

/-- Frame from src/frame.rs. -/
structure Frame where
  header : FrameHeader
  payload : Payload
  deriving DecidableEq, Repr

/-- PRIORITY_BYTES from src/payload.rs. -/
def PRIORITY_BYTES : Nat := 5

/-- PADDING_BYTES from src/payload.rs. -/
def PADDING_BYTES : Nat := 1

/-- Big-endian recombination of four byte fields, as byteorder read_u32
computes it. -/
def be32 (b0 b1 b2 b3 : Nat) : Nat := b0 * 2 ^ 24 + b1 * 2 ^ 16 + b2 * 2 ^ 8 + b3

/-- byteorder BigEndian read_u32: reads the first four bytes, panics
(`none`) when fewer than four bytes are available. -/
def read_u32 : List Nat → Option Nat
  | b0 :: b1 :: b2 :: b3 :: _ => some (be32 b0 b1 b2 b3)
  | _ => none

/-- byteorder BigEndian read_u64: reads the first eight bytes, panics
(`none`) when fewer than eight bytes are available. -/
def read_u64 : List Nat → Option Nat
  | b0 :: b1 :: b2 :: b3 :: b4 :: b5 :: b6 :: b7 :: _ =>
      some (((be32 b0 b1 b2 b3) * 2 ^ 32) + be32 b4 b5 b6 b7)
  | _ => none

/-- StreamIdentifier::parse from src/lib.rs: big-endian u32 read with the
top bit masked off (the source mask with (1 shl 31) - 1 is written as a
remainder by 2 ^ 31). -/
def StreamIdentifier.parse (buf : List Nat) : Option Nat :=
  (read_u32 buf).map (fun v => v % 2 ^ 31)

/-- encode_u24 from src/lib.rs: three big-endian bytes; each `as u8` cast
is written as a remainder by 256 and each right shift as a division. -/
def encode_u24 (v : Nat) : List Nat :=
  [v / 2 ^ 16 % 256, v / 2 ^ 8 % 256, v % 256]

/-- encode_u32 from src/lib.rs (byteorder write_u32): four big-endian
bytes of the value. -/
def encode_u32 (v : Nat) : List Nat :=
  [v / 2 ^ 24 % 256, v / 2 ^ 16 % 256, v / 2 ^ 8 % 256, v % 256]

/-- encode_u64 from src/lib.rs (byteorder write_u64): eight big-endian
bytes of the value. -/
def encode_u64 (v : Nat) : List Nat :=
  [v / 2 ^ 56 % 256, v / 2 ^ 48 % 256, v / 2 ^ 40 % 256, v / 2 ^ 32 % 256,
   v / 2 ^ 24 % 256, v / 2 ^ 16 % 256, v / 2 ^ 8 % 256, v % 256]

/-- StreamIdentifier::encode from src/lib.rs: delegates to encode_u32 on
the stored u32 with no masking of the top bit. -/
def StreamIdentifier.encode (v : Nat) : List Nat := encode_u32 v

/-- ErrorCode::parse from src/lib.rs: unmasked big-endian u32 read. -/
def ErrorCode.parse (buf : List Nat) : Option Nat := read_u32 buf

/-- SizeIncrement::parse from src/lib.rs: unmasked big-endian u32 read. -/
def SizeIncrement.parse (buf : List Nat) : Option Nat := read_u32 buf

/-- Priority::parse from src/payload.rs.  With `present` it reads five
bytes with no length guard: on a buffer of fewer than five bytes the
source indexes out of range, which is the `fault` case here.  The
exclusivity test `buf[0] & 0x7F != buf[0]` is written with a remainder by
128, and the dependency is the StreamIdentifier read of the first four
bytes (masked to 31 bits). -/
def Priority.parse (present : Bool) (buf : List Nat) :
    Res (List Nat × Option Priority) :=
  if present then
    match buf with
    | b0 :: b1 :: b2 :: b3 :: b4 :: rest =>
        Res.ok (rest, some
          { exclusive := b0 % 128 != b0
            dependency := be32 b0 b1 b2 b3 % 2 ^ 31
            weight := b4 })
    | _ => Res.fault
  else Res.ok (buf, none)

/-- Priority::encode from src/payload.rs: the dependency with the
exclusivity bit set (the source bit-or with 1 shl 31 on a u32 value is
written arithmetically as value % 2 ^ 31 + 2 ^ 31, which agrees with it on
every u32), then the weight byte at index 4.  Always five bytes. -/
def Priority.encode (p : Priority) : List Nat :=
  let dependency := if p.exclusive then p.dependency % 2 ^ 31 + 2 ^ 31 else p.dependency
  StreamIdentifier.encode dependency ++ [p.weight]

/-- trim_padding from src/payload.rs.  With the padding flag set it reads
the pad length byte (panicking on an empty buffer), rejects only the
strictly-greater case with TooMuchPadding, and then takes the sub-slice
from index 1 to header.length - pad; a slice whose lower bound exceeds its
upper bound, or whose upper bound exceeds the buffer length, panics. -/
def trim_padding (s : ParserSettings) (header : FrameHeader) (buf : List Nat) :
    Res (List Nat) :=
  if s.padding then
    match buf with
    | [] => Res.fault
    | pad :: _ =>
        if header.length < pad then Res.err (Error.TooMuchPadding pad)
        else if header.length - pad < 1 ∨ buf.length < header.length - pad then Res.fault
        else Res.ok ((buf.take (header.length - pad)).drop 1)
  else Res.ok buf

/-- Byte image of one Setting.  The source stores settings as packed
(u16, u32) structs and reinterprets raw memory in both directions
(Setting::to_bytes and Setting::from_bytes via slice::from_raw_parts), so
the concrete byte image is the in-memory representation of the packed
struct; it is modelled here as the little-endian layout of the common
x86/ARM targets, with the identifier at offsets 0..2 and the value at
offsets 2..6.  The theorems below rely only on this map being a
fixed-layout bijection onto six-byte records, which holds on every
platform. -/
def Setting.reprBytes (s : Setting) : List Nat :=
  [s.identifier % 256, s.identifier / 256 % 256,
   s.value % 256, s.value / 2 ^ 8 % 256, s.value / 2 ^ 16 % 256, s.value / 2 ^ 24 % 256]

/-- Setting::to_bytes from src/payload.rs: the concatenated memory image
of the settings array, six bytes per record. -/
def Setting.toBytes : List Setting → List Nat
  | [] => []
  | s :: rest => s.reprBytes ++ Setting.toBytes rest

/-- Setting::from_bytes from src/payload.rs: reinterpret the buffer as
floor(len / 6) records, reading each six-byte chunk back through the same
memory layout as `Setting.reprBytes`. -/
def Setting.fromBytes : List Nat → List Setting
  | b0 :: b1 :: b2 :: b3 :: b4 :: b5 :: rest =>
      { identifier := b0 + b1 * 256
        value := b2 + b3 * 2 ^ 8 + b4 * 2 ^ 16 + b5 * 2 ^ 24 } :: Setting.fromBytes rest
  | _ => []

/-- The minimum payload length Payload::parse derives from the parser
settings (priority and padding flags). -/
def minPayloadLength (s : ParserSettings) : Nat :=
  if s.priority && s.padding then PRIORITY_BYTES + PADDING_BYTES
  else if s.priority then PRIORITY_BYTES
  else if s.padding then PADDING_BYTES
  else 0

/-- Payload::parse_data from src/payload.rs. -/
def Payload.parse_data (header : FrameHeader) (buf : List Nat)
    (s : ParserSettings) : Res Payload :=
  match trim_padding s header buf with
  | Res.ok buf => Res.ok (Payload.Data buf)
  | Res.err e => Res.err e
  | Res.fault => Res.fault

/-- Payload::parse_headers from src/payload.rs. -/
def Payload.parse_headers (header : FrameHeader) (buf : List Nat)
    (s : ParserSettings) : Res Payload :=
  match trim_padding s header buf with
  | Res.ok buf =>
      match Priority.parse s.priority buf with
      | Res.ok (buf, priority) => Res.ok (Payload.Headers priority buf)
      | Res.err e => Res.err e
      | Res.fault => Res.fault
  | Res.err e => Res.err e
  | Res.fault => Res.fault

/-- Payload::parse_reset from src/payload.rs: at least four declared bytes,
then an unmasked u32 error code. -/
def Payload.parse_reset (header : FrameHeader) (buf : List Nat) : Res Payload :=
  if header.length < 4 then Res.err Error.PayloadLengthTooShort
  else
    match ErrorCode.parse buf with
    | some e => Res.ok (Payload.Reset e)
    | none => Res.fault

/-- Payload::parse_settings from src/payload.rs: the declared length must
be a multiple of the six-byte record size, then the first header.length
bytes are reinterpreted as records (the slice panics when the buffer is
shorter than header.length). -/
def Payload.parse_settings (header : FrameHeader) (buf : List Nat) : Res Payload :=
  if header.length % 6 ≠ 0 then Res.err Error.PartialSettingLength
  else if buf.length < header.length then Res.fault
  else Res.ok (Payload.Settings (Setting.fromBytes (buf.take header.length)))

/-- Payload::parse_ping from src/payload.rs: the declared length must be
exactly eight, then an unmasked big-endian u64 read. -/
def Payload.parse_ping (header : FrameHeader) (buf : List Nat) : Res Payload :=
  if header.length ≠ 8 then Res.err Error.InvalidPayloadLength
  else
    match read_u64 buf with
    | some d => Res.ok (Payload.Ping d)
    | none => Res.fault

/-- Payload::parse_goaway from src/payload.rs: at least eight declared
bytes, then a masked stream identifier, an error code, and the remaining
bytes as debug data. -/
def Payload.parse_goaway (header : FrameHeader) (buf : List Nat) : Res Payload :=
  if header.length < 8 then Res.err Error.PayloadLengthTooShort
  else
    match StreamIdentifier.parse buf, ErrorCode.parse (buf.drop 4) with
    | some last, some e => Res.ok (Payload.GoAway last e (buf.drop 8))
    | _, _ => Res.fault

/-- Payload::parse_window_update from src/payload.rs: the declared length
must be exactly four, then an unmasked u32 size increment. -/
def Payload.parse_window_update (header : FrameHeader) (buf : List Nat) : Res Payload :=
  if header.length ≠ 4 then Res.err Error.InvalidPayloadLength
  else
    match SizeIncrement.parse buf with
    | some inc => Res.ok (Payload.WindowUpdate inc)
    | none => Res.fault

/-- Payload::parse_push_promise from src/payload.rs: strip padding, then
require at least four remaining bytes, then a masked promised stream
identifier followed by the header block. -/
def Payload.parse_push_promise (header : FrameHeader) (buf : List Nat)
    (s : ParserSettings) : Res Payload :=
  match trim_padding s header buf with
  | Res.ok buf =>
      if buf.length < 4 then Res.err Error.PayloadLengthTooShort
      else
        match StreamIdentifier.parse buf with
        | some promised => Res.ok (Payload.PushPromise promised (buf.drop 4))
        | none => Res.fault
  | Res.err e => Res.err e
  | Res.fault => Res.fault

/-- Payload::parse from src/payload.rs: derive the parser settings from
the flag byte, check the buffer against the declared length, enforce the
flag-derived minimum length, truncate to the declared length, and dispatch
on the frame kind.  The Priority arm calls Priority::parse with present
unconditionally true and unwraps the optional result (an unwrap of None
would panic, hence `fault`; it is unreachable because present is true). -/
def Payload.parse (header : FrameHeader) (buf : List Nat) : Res Payload :=
  let s : ParserSettings :=
    { padding := Flag.contains header.flag Flag.PADDED
      priority := Flag.contains header.flag Flag.PRIORITY }
  if buf.length < header.length then Res.err Error.Short
  else if header.length < minPayloadLength s then Res.err Error.PayloadLengthTooShort
  else
    let buf := buf.take header.length
    match header.kind with
    | Kind.Data => Payload.parse_data header buf s
    | Kind.Headers => Payload.parse_headers header buf s
    | Kind.Priority =>
        match Priority.parse true buf with
        | Res.ok (_, some p) => Res.ok (Payload.Priority p)
        | Res.ok (_, none) => Res.fault
        | Res.err e => Res.err e
        | Res.fault => Res.fault
    | Kind.Reset => Payload.parse_reset header buf
    | Kind.Settings => Payload.parse_settings header buf
    | Kind.Ping => Payload.parse_ping header buf
    | Kind.GoAway => Payload.parse_goaway header buf
    | Kind.WindowUpdate => Payload.parse_window_update header buf
    | Kind.PushPromise => Payload.parse_push_promise header buf s
    | Kind.Continuation => Res.ok (Payload.Continuation buf)
    | Kind.Unregistered => Res.ok (Payload.Unregistered buf)

/-- Payload::encode from src/payload.rs, modelled as the list of bytes the
source writes into a sufficiently large output buffer (encode_memory on a
large-enough destination copies its whole source slice). -/
def Payload.encode : Payload → List Nat
  | Payload.Data data => data
  | Payload.Headers priority block =>
      (match priority with
       | some p => p.encode
       | none => []) ++ block
  | Payload.Reset e => encode_u32 e
  | Payload.Settings settings => Setting.toBytes settings
  | Payload.Ping data => encode_u64 data
  | Payload.GoAway last error data =>
      StreamIdentifier.encode last ++ encode_u32 error ++ data
  | Payload.WindowUpdate inc => encode_u32 inc
  | Payload.PushPromise promised block => StreamIdentifier.encode promised ++ block
  | Payload.Priority p => p.encode
  | Payload.Continuation block => block
  | Payload.Unregistered block => block

/-- Payload::encoded_len from src/payload.rs (size_of Setting is six). -/
def Payload.encoded_len : Payload → Nat
  | Payload.Data data => data.length
  | Payload.Headers priority block =>
      (if priority.isSome then 5 else 0) + block.length
  | Payload.Reset _ => 4
  | Payload.Settings settings => settings.length * 6
  | Payload.Ping _ => 8
  | Payload.GoAway _ _ data => 4 + 4 + data.length
  | Payload.WindowUpdate _ => 4
  | Payload.PushPromise _ block => 4 + block.length
  | Payload.Priority _ => 5
  | Payload.Continuation block => block.length
  | Payload.Unregistered block => block.length

/-- Payload::padded from src/payload.rs: the public accessor for the pad
length of a parsed payload, which the source defines as the constant None. -/
def Payload.padded (_ : Payload) : Option Nat := none

/-- Payload::kind from src/payload.rs. -/
def Payload.kind : Payload → Kind
  | Payload.Data _ => Kind.Data
  | Payload.Headers _ _ => Kind.Headers
  | Payload.Priority _ => Kind.Priority
  | Payload.Reset _ => Kind.Reset
  | Payload.Settings _ => Kind.Settings
  | Payload.PushPromise _ _ => Kind.PushPromise
  | Payload.Ping _ => Kind.Ping
  | Payload.GoAway _ _ _ => Kind.GoAway
  | Payload.WindowUpdate _ => Kind.WindowUpdate
  | Payload.Continuation _ => Kind.Continuation
  | Payload.Unregistered _ => Kind.Unregistered

/-- FrameHeader::parse from src/frame.rs: Short on fewer than nine bytes,
else the 24-bit length (big-endian byte recombination), the kind byte via
Kind::new, the flag byte via Flag::new (propagating BadFlag), and the
masked stream identifier from bytes 5..9. -/
def FrameHeader.parse (buf : List Nat) : Res FrameHeader :=
  match buf with
  | b0 :: b1 :: b2 :: b3 :: b4 :: b5 :: b6 :: b7 :: b8 :: _ =>
      (match Flag.new b4 with
       | some fl =>
           Res.ok
             { length := b0 * 2 ^ 16 + b1 * 2 ^ 8 + b2
               kind := Kind.new b3
               flag := fl
               id := be32 b5 b6 b7 b8 % 2 ^ 31 }
       | none => Res.err (Error.BadFlag b4))
  | _ => Res.err Error.Short

/-- FrameHeader::encode from src/frame.rs: the 24-bit length, the kind
byte, the flag byte, and the stream identifier encoded with no masking. -/
def FrameHeader.encode (h : FrameHeader) : List Nat :=
  encode_u24 h.length ++ [h.kind.encode, h.flag] ++ StreamIdentifier.encode h.id

/-- Frame::parse from src/frame.rs: pairs the given header with the parsed
payload. -/
def Frame.parse (header : FrameHeader) (buf : List Nat) : Res Frame :=
  match Payload.parse header buf with
  | Res.ok p => Res.ok { header := header, payload := p }
  | Res.err e => Res.err e
  | Res.fault => Res.fault

/-- Frame::encode from src/frame.rs: the nine header bytes followed by the
payload bytes. -/
def Frame.encode (f : Frame) : List Nat :=
  f.header.encode ++ f.payload.encode

/-- Frame::encoded_len from src/frame.rs. -/
def Frame.encoded_len (f : Frame) : Nat :=
  9 + f.payload.encoded_len

/-- True when the payload is a Headers payload carrying a Priority. -/
def Payload.hasPriority : Payload → Bool
  | Payload.Headers (some _) _ => true
  | _ => false

/-- Bounds the Rust integer types impose on a Priority value: the
dependency is a u32 and the weight a u8. -/
def Priority.rustTypeOk (p : Priority) : Bool :=
  decide (p.dependency < 2 ^ 32) && decide (p.weight < 256)

/-- Bounds the Rust integer types impose on a Setting value. -/
def Setting.rustTypeOk (s : Setting) : Bool :=
  decide (s.identifier < 2 ^ 16) && decide (s.value < 2 ^ 32)

/-- Every element of the list is a byte value. -/
def bytesOk (l : List Nat) : Bool := l.all (fun b => decide (b < 256))

/-- Bounds the Rust integer types impose on a Payload value: u32 fields
are below 2 ^ 32, the ping value is a u64, and borrowed views hold bytes. -/
def Payload.rustTypeOk : Payload → Bool
  | Payload.Data data => bytesOk data
  | Payload.Headers none block => bytesOk block
  | Payload.Headers (some p) block => p.rustTypeOk && bytesOk block
  | Payload.Priority p => p.rustTypeOk
  | Payload.Reset e => decide (e < 2 ^ 32)
  | Payload.Settings settings => settings.all Setting.rustTypeOk
  | Payload.PushPromise promised block => decide (promised < 2 ^ 32) && bytesOk block
  | Payload.Ping data => decide (data < 2 ^ 64)
  | Payload.GoAway last error data =>
      decide (last < 2 ^ 32) && decide (error < 2 ^ 32) && bytesOk data
  | Payload.WindowUpdate inc => decide (inc < 2 ^ 32)
  | Payload.Continuation block => bytesOk block
  | Payload.Unregistered block => bytesOk block

/-- Validity of a Frame exactly as the round-trip claim states it, plus the
invariants the Rust types enforce by construction: the kind of the header
matches the payload, the declared length is the encoded length, the flag
byte only holds declared flag bits (the Flag type invariant) with the
padded bit clear and the priority bit set exactly when a Headers payload
carries a Priority, and all numeric fields are within their Rust types. -/
def Frame.validb (f : Frame) : Bool :=
  (f.header.kind == f.payload.kind) &&
  (f.header.length == f.payload.encoded_len) &&
  (f.header.flag &&& 0x2D == f.header.flag) &&
  (Flag.contains f.header.flag Flag.PADDED == false) &&
  (Flag.contains f.header.flag Flag.PRIORITY == f.payload.hasPriority) &&
  decide (f.header.length < 2 ^ 32) && decide (f.header.id < 2 ^ 32) &&
  f.payload.rustTypeOk

/-- All stream identifiers stored in the payload have bit 31 clear. -/
def Payload.sidsLow : Payload → Bool
  | Payload.Headers (some p) _ => decide (p.dependency < 2 ^ 31)
  | Payload.Priority p => decide (p.dependency < 2 ^ 31)
  | Payload.PushPromise promised _ => decide (promised < 2 ^ 31)
  | Payload.GoAway last _ _ => decide (last < 2 ^ 31)
  | _ => true

/-- All stream identifiers stored in the frame have bit 31 clear. -/
def Frame.sidsLow (f : Frame) : Bool :=
  decide (f.header.id < 2 ^ 31) && f.payload.sidsLow

lemma encode_u32_length (v : Nat) : (encode_u32 v).length = 4 := rfl

lemma encode_u64_length (v : Nat) : (encode_u64 v).length = 8 := rfl

lemma Priority.encode_length (p : Priority) : p.encode.length = 5 := by
  simp [Priority.encode, StreamIdentifier.encode, encode_u32]

lemma Setting.toBytes_length (l : List Setting) :
    (Setting.toBytes l).length = l.length * 6 := by
  induction l with
  | nil => rfl
  | cons s rest ih =>
      simp only [Setting.toBytes, Setting.reprBytes, List.length_append, ih,
        List.length_cons, List.length_nil]
      omega

/-- The encoder emits exactly encoded_len bytes, for every payload. -/
lemma encode_length_eq (p : Payload) : p.encode.length = p.encoded_len := by
  cases p with
  | Data d => rfl
  | Headers pr block =>
      cases pr with
      | none => simp [Payload.encode, Payload.encoded_len]
      | some q => simp [Payload.encode, Payload.encoded_len, Priority.encode_length]
  | Priority q => simp [Payload.encode, Payload.encoded_len, Priority.encode_length]
  | Reset e => rfl
  | Settings s => simp [Payload.encode, Payload.encoded_len, Setting.toBytes_length]
  | PushPromise promised block =>
      simp [Payload.encode, Payload.encoded_len, StreamIdentifier.encode, encode_u32]
      omega
  | Ping d => rfl
  | GoAway last e d =>
      simp [Payload.encode, Payload.encoded_len, StreamIdentifier.encode, encode_u32]
      omega
  | WindowUpdate inc => rfl
  | Continuation b => rfl
  | Unregistered b => rfl

lemma read_u32_encode (v : Nat) (hv : v < 2 ^ 32) (rest : List Nat) :
    read_u32 (encode_u32 v ++ rest) = some v := by
  simp only [encode_u32, List.cons_append, List.nil_append, read_u32, be32,
    Option.some.injEq]
  omega

lemma sid_parse_encode (v : Nat) (hv : v < 2 ^ 32) (rest : List Nat) :
    StreamIdentifier.parse (StreamIdentifier.encode v ++ rest) = some (v % 2 ^ 31) := by
  simp [StreamIdentifier.parse, StreamIdentifier.encode, read_u32_encode v hv rest]

lemma read_u64_encode (v : Nat) (hv : v < 2 ^ 64) (rest : List Nat) :
    read_u64 (encode_u64 v ++ rest) = some v := by
  simp only [encode_u64, List.cons_append, List.nil_append, read_u64, be32,
    Option.some.injEq]
  omega

lemma encode_u32_append_drop4 (v : Nat) (rest : List Nat) :
    (encode_u32 v ++ rest).drop 4 = rest := rfl

/-- Parsing an encoded Priority recovers it exactly, for dependencies with
bit 31 clear. -/
lemma priority_roundtrip (p : Priority) (rest : List Nat)
    (hd : p.dependency < 2 ^ 31) :
    Priority.parse true (p.encode ++ rest) = Res.ok (rest, some p) := by
  obtain ⟨ex, d, w⟩ := p
  simp only at hd
  cases ex with
  | false =>
      simp [Priority.parse, Priority.encode, StreamIdentifier.encode, encode_u32,
        be32, bne_eq_false_iff_eq, Nat.mod_eq_of_lt hd]
      omega
  | true =>
      simp [Priority.parse, Priority.encode, StreamIdentifier.encode, encode_u32,
        be32, bne_iff_ne]
      omega

/-- Reinterpreting the memory image of a settings array yields the array
back, for settings within the u16 and u32 ranges. -/
lemma Setting.fromBytes_toBytes (l : List Setting)
    (h : l.all Setting.rustTypeOk = true) :
    Setting.fromBytes (Setting.toBytes l) = l := by
  induction l with
  | nil => rfl
  | cons s rest ih =>
      simp only [List.all_cons, Bool.and_eq_true] at h
      obtain ⟨h1, h2⟩ := h
      obtain ⟨i, v⟩ := s
      simp only [Setting.rustTypeOk, Bool.and_eq_true, decide_eq_true_eq] at h1
      obtain ⟨hi, hv⟩ := h1
      simp only [Setting.toBytes, Setting.reprBytes, List.cons_append,
        List.nil_append, Setting.fromBytes, ih h2]
      have e1 : i % 256 + i / 256 % 256 * 256 = i := by omega
      have e2 : v % 256 + v / 2 ^ 8 % 256 * 2 ^ 8 + v / 2 ^ 16 % 256 * 2 ^ 16 +
          v / 2 ^ 24 % 256 * 2 ^ 24 = v := by omega
      rw [e1, e2]
      exact congrArg (List.cons _) (ih h2)

lemma Kind.new_encode (k : Kind) : Kind.new k.encode = k := by
  cases k <;> rfl

lemma flag_new_valid (f : Nat) (h : f &&& 0x2D = f) : Flag.new f = some f := by
  have hle : f ≤ 0x2D := h ▸ Nat.and_le_right
  have key : ∀ g, g < 46 → g &&& 0x2D = g → Flag.new g = some g := by decide
  exact key f (by omega) h

/-- Parsing an encoded FrameHeader recovers it exactly, for headers whose
length fits in 24 bits, whose stream identifier has bit 31 clear, and
whose flag byte satisfies the Flag type invariant. -/
lemma frame_header_roundtrip (h : FrameHeader) (rest : List Nat)
    (hlen : h.length < 2 ^ 24) (hid : h.id < 2 ^ 31)
    (hflag : h.flag &&& 0x2D = h.flag) :
    FrameHeader.parse (h.encode ++ rest) = Res.ok h := by
  obtain ⟨len, k, fl, id⟩ := h
  simp only at hlen hid hflag
  have hfl := flag_new_valid fl hflag
  have hk := Kind.new_encode k
  simp [FrameHeader.encode, encode_u24, StreamIdentifier.encode, encode_u32,
    FrameHeader.parse, hfl, hk, be32]
  omega

/-- Parsing an encoded payload under its own header recovers it exactly,
for frames satisfying the validity of the round-trip claim whose stream
identifiers all have bit 31 clear. -/
lemma payload_parse_encode (f : Frame)
    (hv : f.validb = true) (hs : f.sidsLow = true) :
    Payload.parse f.header f.payload.encode = Res.ok f.payload := by
  obtain ⟨⟨len, k, fl, id⟩, p⟩ := f
  simp only [Frame.validb, Frame.sidsLow, Bool.and_eq_true, beq_iff_eq,
    decide_eq_true_eq] at hv hs
  obtain ⟨⟨⟨⟨⟨⟨⟨hkind, hlen⟩, hflmask⟩, hpad⟩, hpri⟩, hlen32⟩, hid32⟩, htype⟩ := hv
  obtain ⟨hid31, hsids⟩ := hs
  cases p with
  | Data d =>
      simp only [Payload.kind] at hkind
      subst hkind
      simp only [Payload.encoded_len] at hlen
      subst hlen
      simp only [Payload.hasPriority] at hpri
      simp [Payload.parse, Payload.encode, Payload.parse_data, trim_padding,
        minPayloadLength, hpad, hpri]
  | Headers pr block =>
      cases pr with
      | none =>
          simp only [Payload.kind] at hkind
          subst hkind
          simp only [Payload.encoded_len, Option.isSome_none, if_false] at hlen
          subst hlen
          simp only [Payload.hasPriority] at hpri
          simp [Payload.parse, Payload.encode, Payload.parse_headers, trim_padding,
            Priority.parse, minPayloadLength, hpad, hpri]
      | some q =>
          simp only [Payload.kind] at hkind
          subst hkind
          simp only [Payload.encoded_len, Option.isSome_some, if_true] at hlen
          subst hlen
          simp only [Payload.hasPriority] at hpri
          simp only [Payload.sidsLow, decide_eq_true_eq] at hsids
          have hlen5 : (Priority.encode q ++ block).length = 5 + block.length := by
            simp [Priority.encode_length]
          have htake : (Priority.encode q ++ block).take (5 + block.length) =
              Priority.encode q ++ block := by
            rw [← hlen5]
            exact List.take_length _
          have hno : ¬ (5 + block.length < 5) := by omega
          simp [Payload.parse, Payload.encode, Payload.parse_headers, trim_padding,
            minPayloadLength, PRIORITY_BYTES, hpad, hpri, hlen5, htake, hno,
            priority_roundtrip q block hsids]
  | Priority q =>
      simp only [Payload.kind] at hkind
      subst hkind
      simp only [Payload.encoded_len] at hlen
      subst hlen
      simp only [Payload.hasPriority] at hpri
      simp only [Payload.sidsLow, decide_eq_true_eq] at hsids
      have htake : (Priority.encode q).take 5 = Priority.encode q := by
        rw [show (5 : Nat) = (Priority.encode q).length from (Priority.encode_length q).symm]
        exact List.take_length _
      have hpq : Priority.parse true (Priority.encode q) = Res.ok ([], some q) := by
        have h := priority_roundtrip q [] hsids
        simpa using h
      simp [Payload.parse, Payload.encode, minPayloadLength, hpad, hpri, htake, hpq,
        Priority.encode_length]
  | Reset e =>
      simp only [Payload.kind] at hkind
      subst hkind
      simp only [Payload.encoded_len] at hlen
      subst hlen
      simp only [Payload.hasPriority] at hpri
      simp only [Payload.rustTypeOk, decide_eq_true_eq] at htype
      have hread : read_u32 (encode_u32 e) = some e := by
        have h := read_u32_encode e htype []
        simpa using h
      have ht : List.take 4 (encode_u32 e) = encode_u32 e := rfl
      simp [Payload.parse, Payload.encode, Payload.parse_reset, ErrorCode.parse,
        minPayloadLength, hpad, hpri, encode_u32_length, hread, ht]
  | Settings s =>
      simp only [Payload.kind] at hkind
      subst hkind
      simp only [Payload.encoded_len] at hlen
      subst hlen
      simp only [Payload.hasPriority] at hpri
      simp only [Payload.rustTypeOk] at htype
      have ht : List.take (s.length * 6) (Setting.toBytes s) = Setting.toBytes s := by
        rw [← Setting.toBytes_length]
        exact List.take_length _
      simp [Payload.parse, Payload.encode, Payload.parse_settings,
        minPayloadLength, hpad, hpri, Setting.toBytes_length, Nat.mul_mod_left, ht,
        Setting.fromBytes_toBytes s htype]
  | PushPromise promised block =>
      simp only [Payload.kind] at hkind
      subst hkind
      simp only [Payload.encoded_len] at hlen
      subst hlen
      simp only [Payload.hasPriority] at hpri
      simp only [Payload.rustTypeOk, Bool.and_eq_true, decide_eq_true_eq] at htype
      simp only [Payload.sidsLow, decide_eq_true_eq] at hsids
      have hlen4 : (StreamIdentifier.encode promised ++ block).length = 4 + block.length := by
        simp [StreamIdentifier.encode, encode_u32]
        omega
      have htake : (StreamIdentifier.encode promised ++ block).take (4 + block.length) =
          StreamIdentifier.encode promised ++ block := by
        rw [← hlen4]
        exact List.take_length _
      have hno : ¬ (4 + block.length < 4) := by omega
      have hsidp : StreamIdentifier.parse (StreamIdentifier.encode promised ++ block) =
          some promised := by
        rw [sid_parse_encode promised htype.1 block]
        exact congrArg some (Nat.mod_eq_of_lt hsids)
      have hdrop : (StreamIdentifier.encode promised ++ block).drop 4 = block :=
        encode_u32_append_drop4 promised block
      simp [Payload.parse, Payload.encode, Payload.parse_push_promise, trim_padding,
        minPayloadLength, hpad, hpri, hlen4, htake, hno, hsidp, hdrop]
  | Ping v =>
      simp only [Payload.kind] at hkind
      subst hkind
      simp only [Payload.encoded_len] at hlen
      subst hlen
      simp only [Payload.hasPriority] at hpri
      simp only [Payload.rustTypeOk, decide_eq_true_eq] at htype
      have hread : read_u64 (encode_u64 v) = some v := by
        have h := read_u64_encode v htype []
        simpa using h
      have ht : List.take 8 (encode_u64 v) = encode_u64 v := rfl
      simp [Payload.parse, Payload.encode, Payload.parse_ping,
        minPayloadLength, hpad, hpri, encode_u64_length, hread, ht]
  | GoAway last e d =>
      simp only [Payload.kind] at hkind
      subst hkind
      simp only [Payload.encoded_len] at hlen
      subst hlen
      simp only [Payload.hasPriority] at hpri
      simp only [Payload.rustTypeOk, Bool.and_eq_true, decide_eq_true_eq] at htype
      simp only [Payload.sidsLow, decide_eq_true_eq] at hsids
      obtain ⟨⟨hlast, he⟩, hdata⟩ := htype
      have hlen8 : (StreamIdentifier.encode last ++ (encode_u32 e ++ d)).length =
          4 + 4 + d.length := by
        simp [StreamIdentifier.encode, encode_u32]
        omega
      have htake : (StreamIdentifier.encode last ++ (encode_u32 e ++ d)).take (4 + 4 + d.length) =
          StreamIdentifier.encode last ++ (encode_u32 e ++ d) := by
        rw [← hlen8]
        exact List.take_length _
      have hno : ¬ (4 + 4 + d.length < 8) := by omega
      have hsidp : StreamIdentifier.parse (StreamIdentifier.encode last ++ (encode_u32 e ++ d)) =
          some last := by
        rw [sid_parse_encode last hlast (encode_u32 e ++ d)]
        exact congrArg some (Nat.mod_eq_of_lt hsids)
      have hdrop4 : (StreamIdentifier.encode last ++ (encode_u32 e ++ d)).drop 4 =
          encode_u32 e ++ d := encode_u32_append_drop4 last (encode_u32 e ++ d)
      have herr : read_u32 (encode_u32 e ++ d) = some e := read_u32_encode e he d
      have hdrop8 : (StreamIdentifier.encode last ++ (encode_u32 e ++ d)).drop 8 = d := by
        simp [StreamIdentifier.encode, encode_u32]
      simp [Payload.parse, Payload.encode, Payload.parse_goaway, ErrorCode.parse,
        minPayloadLength, hpad, hpri, hlen8, htake, hno, hsidp, hdrop4, herr, hdrop8]
  | WindowUpdate inc =>
      simp only [Payload.kind] at hkind
      subst hkind
      simp only [Payload.encoded_len] at hlen
      subst hlen
      simp only [Payload.hasPriority] at hpri
      simp only [Payload.rustTypeOk, decide_eq_true_eq] at htype
      have hread : read_u32 (encode_u32 inc) = some inc := by
        have h := read_u32_encode inc htype []
        simpa using h
      have ht : List.take 4 (encode_u32 inc) = encode_u32 inc := rfl
      simp [Payload.parse, Payload.encode, Payload.parse_window_update,
        SizeIncrement.parse, minPayloadLength, hpad, hpri, encode_u32_length, hread, ht]
  | Continuation b =>
      simp only [Payload.kind] at hkind
      subst hkind
      simp only [Payload.encoded_len] at hlen
      subst hlen
      simp only [Payload.hasPriority] at hpri
      simp [Payload.parse, Payload.encode, minPayloadLength, hpad, hpri]
  | Unregistered b =>
      simp only [Payload.kind] at hkind
      subst hkind
      simp only [Payload.encoded_len] at hlen
      subst hlen
      simp only [Payload.hasPriority] at hpri
      simp [Payload.parse, Payload.encode, minPayloadLength, hpad, hpri]

/-- A sample valid frame used to witness the amended round-trip theorem:
a Headers frame with priority flag set carrying a priority and a two-byte
header block. -/
def sampleFrame : Frame :=
  { header := { length := 7, kind := Kind.Headers, flag := 0x20, id := 9 }
    payload := Payload.Headers (some { exclusive := true, dependency := 5, weight := 200 })
      [171, 205] }

/-- C1 (counterexample): the round-trip claim fails as stated.  The frame
below satisfies every validity condition the claim lists (header kind
matches the payload, header length equals encoded_len, padded flag clear,
priority flag set iff a Headers payload carries a priority) and all Rust
type bounds, yet parsing the header back from the encoded bytes yields a
different header: StreamIdentifier::encode writes the stored bit 31 of the
stream identifier while FrameHeader::parse masks it off. -/
theorem C1_roundtrip_counterexample :
    Frame.validb ⟨⟨0, Kind.Data, 0, 2 ^ 31⟩, Payload.Data []⟩ = true ∧
    FrameHeader.parse (Frame.encode ⟨⟨0, Kind.Data, 0, 2 ^ 31⟩, Payload.Data []⟩) =
      Res.ok ⟨0, Kind.Data, 0, 0⟩ ∧
    (⟨0, Kind.Data, 0, 0⟩ : FrameHeader) ≠ ⟨0, Kind.Data, 0, 2 ^ 31⟩ := by
  refine ⟨by decide, by decide, by decide⟩

lemma validb_flag (f : Frame) (hv : f.validb = true) :
    f.header.flag &&& 0x2D = f.header.flag := by
  simp only [Frame.validb, Bool.and_eq_true, beq_iff_eq, decide_eq_true_eq] at hv
  tauto

lemma sidsLow_id (f : Frame) (hs : f.sidsLow = true) : f.header.id < 2 ^ 31 := by
  simp only [Frame.sidsLow, Bool.and_eq_true, decide_eq_true_eq] at hs
  exact hs.1

/-- C1 (amended): for every valid Frame in the sense of the claim whose
stream identifiers (the header id and any identifier stored in the
payload: a PushPromise promised id, a GoAway last id, or a Priority
dependency, including inside Headers) have bit 31 clear and whose header
length fits the 24-bit wire field, encoding the frame and then parsing the
header from the first nine bytes and the payload from the remainder yields
the frame back, including the contents of all byte views.  The two extra
conditions are forced by the code: StreamIdentifier::encode does not mask
bit 31 while parse does, and encode_u24 drops bits above 24. -/
theorem C1_roundtrip_amended (f : Frame)
    (hv : f.validb = true) (hs : f.sidsLow = true)
    (hlen : f.header.length < 2 ^ 24) :
    FrameHeader.parse (Frame.encode f) = Res.ok f.header ∧
    Frame.parse f.header ((Frame.encode f).drop 9) = Res.ok f := by
  have hdrop : (Frame.encode f).drop 9 = f.payload.encode := by
    simp [Frame.encode, FrameHeader.encode, encode_u24, StreamIdentifier.encode,
      encode_u32]
  constructor
  · exact frame_header_roundtrip f.header f.payload.encode hlen
      (sidsLow_id f hs) (validb_flag f hv)
  · rw [hdrop]
    simp [Frame.parse, payload_parse_encode f hv hs]

/-- Witness for the amended round-trip theorem at a concrete frame. -/
theorem C1_roundtrip_witness :
    (Frame.validb sampleFrame = true ∧ Frame.sidsLow sampleFrame = true ∧
      sampleFrame.header.length < 2 ^ 24) ∧
    (FrameHeader.parse (Frame.encode sampleFrame) = Res.ok sampleFrame.header ∧
      Frame.parse sampleFrame.header ((Frame.encode sampleFrame).drop 9) =
        Res.ok sampleFrame) :=
  ⟨⟨by decide, by decide, by decide⟩,
   C1_roundtrip_amended sampleFrame (by decide) (by decide) (by decide)⟩

/-- C2: the padding boundary is not handled by the code.  At pad length
equal to header length the strict greater-than guard of trim_padding
admits the input and the slice from index 1 to 0 faults (panics) instead
of failing cleanly with TooMuchPadding as the claim requires: a padded
Data frame of declared length 1 whose single payload byte (the pad length)
is 1 makes Payload::parse fault. -/
theorem C2_padding_boundary_fault :
    Payload.parse ⟨1, Kind.Data, 0x8, 0⟩ [1] = Res.fault ∧
    trim_padding ⟨true, false⟩ ⟨1, Kind.Data, 0x8, 0⟩ [1] = Res.fault := by
  refine ⟨by decide, by decide⟩

/-- C4: Priority::parse with present = true performs no length check, so
on any buffer of fewer than five bytes it faults (indexes out of range)
instead of failing with Short or another length error: a Priority frame of
declared length 3 with no flags set faults, and so does a padded Headers
frame whose padding leaves fewer than five bytes for the priority fields. -/
theorem C4_priority_short_fault :
    Priority.parse true [0, 0, 0] = Res.fault ∧
    Payload.parse ⟨3, Kind.Priority, 0, 0⟩ [0, 0, 0] = Res.fault ∧
    Payload.parse ⟨6, Kind.Headers, 0x28, 0⟩ [3, 0, 0, 0, 0, 0] = Res.fault := by
  refine ⟨by decide, by decide, by decide⟩

/-- C3: for every Payload value, encoding into a sufficiently large buffer
writes exactly encoded_len bytes and returns that count (the encoder is
modelled as the list of bytes written, whose length is the returned
count); encoded_len is the per-variant formula of the source. -/
theorem C3_encoded_len_exact (p : Payload) :
    p.encode.length = p.encoded_len :=
  encode_length_eq p

/-- C5 (counterexample): StreamIdentifier::encode does not mask the top
bit.  On the value with bit 31 set it writes 0x80 as the first byte, which
both has the top bit set and differs from the big-endian encoding of the
value masked to its low 31 bits. -/
theorem C5_encode_mask_counterexample :
    StreamIdentifier.encode (2 ^ 31) = [128, 0, 0, 0] ∧
    StreamIdentifier.encode (2 ^ 31) ≠ encode_u32 (2 ^ 31 % 2 ^ 31) := by
  refine ⟨by decide, by decide⟩

/-- C5 (amended): StreamIdentifier::encode writes the four big-endian
bytes of the stored u32 verbatim, with no masking; consequently the top
bit of the output is 0 precisely for values with bit 31 clear, which
covers every identifier produced by StreamIdentifier::parse. -/
theorem C5_encode_verbatim (v : Nat) (hv : v < 2 ^ 31) :
    StreamIdentifier.encode v = encode_u32 v ∧
    (StreamIdentifier.encode v).headD 0 < 0x80 := by
  refine ⟨rfl, ?_⟩
  simp only [StreamIdentifier.encode, encode_u32, List.headD_cons]
  omega

/-- Witness for the amended StreamIdentifier encode theorem. -/
theorem C5_encode_verbatim_witness :
    (77 : Nat) < 2 ^ 31 ∧
    (StreamIdentifier.encode 77 = encode_u32 77 ∧
      (StreamIdentifier.encode 77).headD 0 < 0x80) :=
  ⟨by decide, C5_encode_verbatim 77 (by decide)⟩

/-- C7: with no flags set and a buffer at least as long as the declared
length, a Reset frame of declared length below 4 fails with
PayloadLengthTooShort, a Ping frame of declared length other than 8 fails
with InvalidPayloadLength, and a Settings frame whose declared length is
not a multiple of 6 fails with PartialSettingLength. -/
theorem C7_min_length_errors (len id : Nat) (buf : List Nat)
    (hbuf : len ≤ buf.length) :
    (len < 4 →
      Payload.parse ⟨len, Kind.Reset, 0, id⟩ buf = Res.err Error.PayloadLengthTooShort) ∧
    (len ≠ 8 →
      Payload.parse ⟨len, Kind.Ping, 0, id⟩ buf = Res.err Error.InvalidPayloadLength) ∧
    (len % 6 ≠ 0 →
      Payload.parse ⟨len, Kind.Settings, 0, id⟩ buf = Res.err Error.PartialSettingLength) := by
  have hnl : ¬ (buf.length < len) := by omega
  refine ⟨?_, ?_, ?_⟩
  · intro h4
    simp [Payload.parse, Payload.parse_reset, minPayloadLength, Flag.contains,
      Flag.PADDED, Flag.PRIORITY, hnl, h4]
  · intro h8
    simp [Payload.parse, Payload.parse_ping, minPayloadLength, Flag.contains,
      Flag.PADDED, Flag.PRIORITY, hnl, h8]
  · intro h6
    simp [Payload.parse, Payload.parse_settings, minPayloadLength, Flag.contains,
      Flag.PADDED, Flag.PRIORITY, hnl, h6]

/-- Witness for the minimum-length enforcement theorem at the concrete
lengths named by the claim: Reset length 3, Ping length 7, Settings
length 7. -/
theorem C7_min_length_errors_witness :
    Payload.parse ⟨3, Kind.Reset, 0, 0⟩ [0, 0, 0] = Res.err Error.PayloadLengthTooShort ∧
    Payload.parse ⟨7, Kind.Ping, 0, 0⟩ [0, 0, 0, 0, 0, 0, 0] =
      Res.err Error.InvalidPayloadLength ∧
    Payload.parse ⟨7, Kind.Settings, 0, 0⟩ [0, 0, 0, 0, 0, 0, 0] =
      Res.err Error.PartialSettingLength :=
  ⟨(C7_min_length_errors 3 0 [0, 0, 0] (by decide)).1 (by decide),
   (C7_min_length_errors 7 0 [0, 0, 0, 0, 0, 0, 0] (by decide)).2.1 (by decide),
   (C7_min_length_errors 7 0 [0, 0, 0, 0, 0, 0, 0] (by decide)).2.2 (by decide)⟩

/-- C8: Flag::new succeeds on a byte exactly when no bit outside the mask
0x2D is set (the complement mask is 0xD2), the stored bits on success are
the byte itself, and for every invalid flag byte FrameHeader::parse on a
nine-byte buffer carrying it as the flags byte fails with BadFlag of that
byte. -/
theorem C8_flag_validity (b l0 l1 l2 kb i0 i1 i2 i3 : Nat) (hbyte : b < 256) :
    ((Flag.new b).isSome ↔ b &&& 0xD2 = 0) ∧
    (b &&& 0xD2 = 0 → Flag.new b = some b) ∧
    (b &&& 0xD2 ≠ 0 →
      FrameHeader.parse [l0, l1, l2, kb, b, i0, i1, i2, i3] =
        Res.err (Error.BadFlag b)) := by
  have hmask : (0xFF ^^^ Flag.all) = 0xD2 := by decide
  refine ⟨?_, ?_, ?_⟩
  · by_cases h : b &&& 0xD2 = 0
    · simp [Flag.new, hmask, h]
    · simp [Flag.new, hmask, h]
  · intro h
    simp [Flag.new, hmask, h]
  · intro h
    simp [FrameHeader.parse, Flag.new, hmask, h]

/-- Witness for the flag validity theorem at the invalid byte 0x10. -/
theorem C8_flag_validity_witness :
    (0x10 : Nat) < 256 ∧
    (((Flag.new 0x10).isSome ↔ (0x10 : Nat) &&& 0xD2 = 0) ∧
     ((0x10 : Nat) &&& 0xD2 = 0 → Flag.new 0x10 = some 0x10) ∧
     ((0x10 : Nat) &&& 0xD2 ≠ 0 →
       FrameHeader.parse [1, 2, 3, 4, 0x10, 5, 6, 7, 8] =
         Res.err (Error.BadFlag 0x10))) :=
  ⟨by decide, C8_flag_validity 0x10 1 2 3 4 5 6 7 8 (by decide)⟩

/-- C9: every kind byte outside 0..9 maps to Unregistered without failing,
and Payload::parse on an Unregistered-kind header (with a buffer at least
as long as the declared length and the declared length at least the
flag-derived minimum) succeeds with an Unregistered payload carrying
exactly the first header.length bytes of the buffer, with no padding or
priority processing applied. -/
theorem C9_unregistered_passthrough (b len id fl : Nat) (buf : List Nat)
    (hb : 10 ≤ b) (hbuf : len ≤ buf.length)
    (hmin : minPayloadLength
      ⟨Flag.contains fl Flag.PADDED, Flag.contains fl Flag.PRIORITY⟩ ≤ len) :
    Kind.new b = Kind.Unregistered ∧
    Payload.parse ⟨len, Kind.Unregistered, fl, id⟩ buf =
      Res.ok (Payload.Unregistered (buf.take len)) := by
  constructor
  · obtain ⟨c, rfl⟩ : ∃ c, b = c + 10 := ⟨b - 10, by omega⟩
    rfl
  · have hnl : ¬ (buf.length < len) := by omega
    have hm : ¬ (len < minPayloadLength
        ⟨Flag.contains fl Flag.PADDED, Flag.contains fl Flag.PRIORITY⟩) := by omega
    simp [Payload.parse, hnl, hm]

/-- Witness for the unknown-kind passthrough theorem at kind byte 200. -/
theorem C9_unregistered_passthrough_witness :
    ((10 : Nat) ≤ 200 ∧ (3 : Nat) ≤ ([9, 9, 9, 9] : List Nat).length ∧
      minPayloadLength ⟨Flag.contains 0 Flag.PADDED, Flag.contains 0 Flag.PRIORITY⟩ ≤ 3) ∧
    (Kind.new 200 = Kind.Unregistered ∧
      Payload.parse ⟨3, Kind.Unregistered, 0, 0⟩ [9, 9, 9, 9] =
        Res.ok (Payload.Unregistered ([9, 9, 9, 9].take 3))) :=
  ⟨⟨by decide, by decide, by decide⟩,
   C9_unregistered_passthrough 200 3 0 0 [9, 9, 9, 9] (by decide) (by decide) (by decide)⟩

/-- C10: for every Payload value of any variant the public padded accessor
returns None: the pad length of a padded input frame is never represented
in a parsed Payload, so it cannot be recovered from a parsed Frame and is
never re-emitted by encode. -/
theorem C10_padded_none (p : Payload) : p.padded = none := rfl
